import Mathlib

/-
  Shallow embedding of the deterministic simulation core of the snake-battle
  repository (src/src/models/Snake.ts, src/src/models/Collision.ts,
  src/src/Game.tsx, src/src/utils/vector.ts, src/src/config/gameConfig.ts).
  JavaScript numbers are modelled as real numbers; JavaScript arrays as lists.
-/

namespace SnakeBattle

noncomputable section

/-- Vector type for 2D coordinates and directions (src/utils/vector.ts). -/
structure Vector where
  x : ℝ
  y : ℝ

/-- Magnitude (length) of a vector (src/utils/vector.ts, magnitude). -/
def magnitude (v : Vector) : ℝ :=
  Real.sqrt (v.x * v.x + v.y * v.y)

/-- Normalize a vector to unit length; the zero vector maps to zero
(src/utils/vector.ts, normalize). -/
def normalize (v : Vector) : Vector :=
  if magnitude v = 0 then { x := 0, y := 0 }
  else { x := v.x / magnitude v, y := v.y / magnitude v }

/-- Scale a vector by a scalar value (src/utils/vector.ts, scale). -/
def scale (v : Vector) (scalar : ℝ) : Vector :=
  { x := v.x * scalar, y := v.y * scalar }

/-- Add two vectors (src/utils/vector.ts, add). -/
def add (v1 v2 : Vector) : Vector :=
  { x := v1.x + v2.x, y := v1.y + v2.y }

/-- Subtract the second vector from the first (src/utils/vector.ts, subtract). -/
def subtract (v1 v2 : Vector) : Vector :=
  { x := v1.x - v2.x, y := v1.y - v2.y }

/-- Euclidean distance between two vectors (src/utils/vector.ts, distance). -/
def distance (v1 v2 : Vector) : ℝ :=
  Real.sqrt ((v2.x - v1.x) * (v2.x - v1.x) + (v2.y - v1.y) * (v2.y - v1.y))

/-
  Configuration constants (src/config/gameConfig.ts).
-/

/-- gameConfig.playerSnake.baseWidth. -/
def baseWidth : ℝ := 4

/-- gameConfig.playerSnake.widthGrowthInterval. -/
def widthGrowthInterval : ℕ := 20

/-- gameConfig.playerSnake.widthIncrement. -/
def widthIncrement : ℝ := 2

/-- gameConfig.playerSnake.maxWidth. -/
def maxWidth : ℝ := 20

/-- gameConfig.playerSnake.headImmunitySegments. -/
def headImmunitySegments : ℕ := 5

/-- gameConfig.playerSnake.selfCollisionImmunityTime. -/
def selfCollisionImmunityTime : ℝ := 0.3

/-- Segment role tag (src/utils/constants.ts, SegmentType). -/
inductive SegmentType where
  | HEAD
  | BODY
  | TAIL
deriving DecidableEq

/-- Snake segment (src/models/Snake.ts, SnakeSegment).  The optional
`immunityTimeLeft?` field of the TypeScript interface is an `Option ℝ`. -/
structure SnakeSegment where
  position : Vector
  width : ℝ
  type : SegmentType
  immunityTimeLeft : Option ℝ
  boosting : Bool

/-- State of a snake (src/models/Snake.ts, class Snake; AISnake extends it,
so rivals share this shape). -/
structure Snake where
  id : String
  segments : List SnakeSegment
  direction : Vector
  targetDirection : Vector
  speed : ℝ
  baseSpeed : ℝ
  boostSpeed : ℝ
  boosting : Bool
  boostTimeLeft : ℝ
  invincibleBoost : Bool
  lastBoostCostTime : ℝ
  points : ℝ
  alive : Bool
  segmentDistance : ℝ
  lastUpdateTime : ℝ

/-- Classical equality test on segments, used only for the empty-list guard
in `grow`. -/
instance : DecidableEq SnakeSegment := Classical.decEq _

/-- Kill the snake (src/models/Snake.ts, Snake.kill, lines 284-288). -/
def kill (s : Snake) : Snake :=
  { s with alive := false, boosting := false, speed := 0 }

/-- Bounding radius for a segment (src/models/Snake.ts, Snake.getSegmentRadius,
lines 431-436).  The index ranges over all integers as in JavaScript. -/
def getSegmentRadius (s : Snake) (segmentIndex : ℤ) : ℝ :=
  if h : segmentIndex < 0 ∨ (s.segments.length : ℤ) ≤ segmentIndex then 0
  else (s.segments.get ⟨segmentIndex.toNat, by omega⟩).width / 2

/-- Check whether a segment has active immunity (src/models/Snake.ts,
Snake.isSegmentImmune, lines 421-426): the segment is among the first
`headImmunitySegments`, or `(segments[i]?.immunityTimeLeft ?? 0) > 0`. -/
def isSegmentImmune (s : Snake) (segmentIndex : ℕ) : Bool :=
  decide (segmentIndex < headImmunitySegments) ||
    decide (0 < (((s.segments.get? segmentIndex).bind
      SnakeSegment.immunityTimeLeft).getD 0))

/-- Apply temporary immunity to a segment (src/models/Snake.ts,
Snake.applyImmunity, lines 293-297): in-range indices get
`immunityTimeLeft = duration`; out-of-range indices are a no-op. -/
def applyImmunity (s : Snake) (segmentIndex : ℤ) (duration : ℝ) : Snake :=
  if h : 0 ≤ segmentIndex ∧ segmentIndex < (s.segments.length : ℤ) then
    let struck := s.segments.get ⟨segmentIndex.toNat, by omega⟩
    let struck' := { struck with immunityTimeLeft := some duration }
    { s with segments := s.segments.set segmentIndex.toNat struck' }
  else s

/-- Width of a segment from the snake's length (src/models/Snake.ts,
Snake.calculateSegmentWidth, lines 109-138).  While boosting the current
width is kept (`segments[segmentIndex]?.width || calculatedWidth`; the
JavaScript `||` falls through on the falsy width 0). -/
def calculateSegmentWidth (s : Snake) (segmentIndex totalLength : ℕ) : ℝ :=
  if totalLength ≤ 10 then baseWidth
  else
    let additionalWidth : ℝ :=
      ((totalLength - 10) / widthGrowthInterval : ℕ) * widthIncrement
    let calculatedWidth := min (baseWidth + additionalWidth) maxWidth
    if s.boosting then
      match s.segments.get? segmentIndex with
      | some seg => if seg.width = 0 then calculatedWidth else seg.width
      | none => calculatedWidth
    else calculatedWidth

/-- Recompute widths, role tags and boosting flags of all segments
(src/models/Snake.ts, Snake.updateSegmentWidths, lines 143-163).  The source
mutates the array in place, but `calculateSegmentWidth` reads the array only
in its boosting branch, which is unreachable from here (widths are written
only when not boosting), so mapping over the original list is faithful. -/
def updateSegmentWidths (s : Snake) : Snake :=
  let length := s.segments.length
  { s with segments := s.segments.mapIdx fun index segment =>
      { segment with
        width := if ¬ s.boosting then calculateSegmentWidth s index length
                 else segment.width
        type := if index = 0 then SegmentType.HEAD
                else if index = length - 1 then SegmentType.TAIL
                else SegmentType.BODY
        boosting := s.boosting } }

/-- Append segments at the tail (src/models/Snake.ts, Snake.grow, lines
240-256): early return when dead or `amount <= 0`; otherwise `amount` copies
of the last segment are pushed and widths are recomputed.  On an empty
segment list the JavaScript code faults (`this.segments[length - 1]` is
undefined); that undefined behaviour is modelled as a no-op and theorems
about grow assume at least one segment. -/
def grow (s : Snake) (amount : ℤ) : Snake :=
  if ¬ s.alive ∨ amount ≤ 0 then s
  else if hne : s.segments = [] then s
  else
    updateSegmentWidths { s with
      segments := s.segments ++ List.replicate amount.toNat
        { position := (s.segments.getLast hne).position
          width := (s.segments.getLast hne).width
          type := SegmentType.TAIL
          immunityTimeLeft := none
          boosting := s.boosting } }

/-- Truncate segments from the tail (src/models/Snake.ts, Snake.shrink, lines
261-272): early return when dead or `amount <= 0`; otherwise the list is cut
to `max 1 (length - amount)` and widths are recomputed. -/
def shrink (s : Snake) (amount : ℤ) : Snake :=
  if ¬ s.alive ∨ amount ≤ 0 then s
  else
    updateSegmentWidths
      { s with segments := s.segments.take (max 1 ((s.segments.length : ℤ) - amount)).toNat }

/-- Head position of a snake (src/models/Snake.ts, `segments[0].position`).
The JavaScript code faults on an empty segment list; the empty case is given
the origin as a junk value and theorems assume at least one segment where it
matters. -/
def headPosition (s : Snake) : Vector :=
  match s.segments with
  | [] => { x := 0, y := 0 }
  | seg :: _ => seg.position

/-- Wall test (src/models/Collision.ts, checkSnakeWallCollision, lines 71-92):
the head circle reaches or crosses a canvas bound. -/
def checkSnakeWallCollision (snake : Snake) (canvasWidth canvasHeight : ℝ) :
    Bool :=
  let headPos := headPosition snake
  let headRadius := getSegmentRadius snake 0
  decide (headPos.x - headRadius ≤ 0) ||
    decide (canvasWidth ≤ headPos.x + headRadius) ||
    decide (headPos.y - headRadius ≤ 0) ||
    decide (canvasHeight ≤ headPos.y + headRadius)

/-- Result of a head-vs-body scan (src/models/Collision.ts,
`{ collided, segmentIndex }`; `segmentIndex` is `-1` when no hit). -/
structure SnakeCollisionResult where
  collided : Bool
  segmentIndex : ℤ
deriving DecidableEq

/-- Scan loop of checkSnakeSnakeCollision (src/models/Collision.ts, lines
119-149): from index `i` upward, immune segments of `snake2` are skipped and
the first segment whose circle meets the head circle of `snake1` is
returned. -/
def snakeCollisionFrom (snake1 snake2 : Snake) (i : ℕ) :
    SnakeCollisionResult :=
  if h : i < snake2.segments.length then
    if isSegmentImmune snake2 i then snakeCollisionFrom snake1 snake2 (i + 1)
    else if distance (headPosition snake1)
        (snake2.segments.get ⟨i, h⟩).position <
        getSegmentRadius snake1 0 + getSegmentRadius snake2 (i : ℤ) then
      { collided := true, segmentIndex := (i : ℤ) }
    else snakeCollisionFrom snake1 snake2 (i + 1)
  else { collided := false, segmentIndex := -1 }
termination_by snake2.segments.length - i

/-- Head-vs-body test (src/models/Collision.ts, checkSnakeSnakeCollision,
lines 97-150): for a self test the scan starts at `headImmunitySegments`
(`snake2.headImmunitySegments || gameConfig.playerSnake.headImmunitySegments`;
the Snake class has no such field, so the config value is used); for a
cross-body test it starts at 0.  Immune segments are skipped in both cases
by the loop itself. -/
def checkSnakeSnakeCollision (snake1 snake2 : Snake)
    (isSelfCollision : Bool) : SnakeCollisionResult :=
  let startSegment := if isSelfCollision then headImmunitySegments else 0
  snakeCollisionFrom snake1 snake2 startSegment

/-- Geometric hit condition tested by the scan loop for index `i`: the index
is in range and the head circle of `snake1` meets segment `i` of `snake2`. -/
def segmentHit (snake1 snake2 : Snake) (i : ℕ) : Prop :=
  ∃ h : i < snake2.segments.length,
    distance (headPosition snake1) (snake2.segments.get ⟨i, h⟩).position <
      getSegmentRadius snake1 0 + getSegmentRadius snake2 (i : ℤ)

/-
  Chain-follow step of Snake.update (src/models/Snake.ts, lines 357-371).
-/

/-- One trailing-segment step (src/models/Snake.ts, Snake.update, lines
358-370): if the distance to the already-updated predecessor exceeds
`segmentDistance`, move toward it by exactly the excess along the unit
vector between them; otherwise stay. -/
def followSegment (prevPos oldPos : Vector) (segmentDistance : ℝ) : Vector :=
  let dirToPrev := subtract prevPos oldPos
  let distToPrev := distance oldPos prevPos
  if segmentDistance < distToPrev then
    let moveAmount := distToPrev - segmentDistance
    let moveDir := normalize dirToPrev
    add oldPos (scale moveDir moveAmount)
  else oldPos

/-- Trailing segments processed in index order, each against its
just-updated predecessor (src/models/Snake.ts, Snake.update, lines
357-371). -/
def followSegments (segmentDistance : ℝ) (prevPos : Vector) :
    List SnakeSegment → List SnakeSegment
  | [] => []
  | seg :: rest =>
    let newPos := followSegment prevPos seg.position segmentDistance
    { seg with position := newPos } ::
      followSegments segmentDistance newPos rest

/-
  Collision resolution and spawning (src/Game.tsx, handleCollisions and
  generateNewAISnake).
-/

/-- PLAYER_SELF resolution (src/Game.tsx, lines 455-473):
`CollisionDetection.applyCollisionImmunity(snake, segmentIndex,
selfCollisionImmunityTime)`, which forwards to `Snake.applyImmunity`
(src/models/Collision.ts, lines 365-371). -/
def resolvePlayerSelf (snake : Snake) (segmentIndex : ℤ) : Snake :=
  applyImmunity snake segmentIndex selfCollisionImmunityTime

/-- PLAYER_WALL resolution (src/Game.tsx, lines 445-453): the player is
killed. -/
def resolvePlayerWall (snake : Snake) : Snake :=
  kill snake

/-- AI_PLAYER_BODY resolution (src/Game.tsx, lines 491-530) restricted to
the struck rival's state: when the rival is missing its death is a no-op
(modelled by the caller passing the rival), a dead or recently removed rival
is a no-op, and otherwise the code runs `aiSnake.alive = false` only — it
does not call `kill()`, so speed is left untouched. -/
def resolveAIPlayerBody (aiSnake : Snake) (recentlyRemoved : Bool) : Snake :=
  if ¬ aiSnake.alive ∨ recentlyRemoved then aiSnake
  else { aiSnake with alive := false }

/-- AI_AI resolution (src/Game.tsx, lines 598-660) restricted to the two
rivals' states, both present: when
`aiSnake1.segments.length >= aiSnake2.segments.length` the second rival is
killed, otherwise the first one is. -/
def resolveAIAI (aiSnake1 aiSnake2 : Snake) : Snake × Snake :=
  if aiSnake1.segments.length ≥ aiSnake2.segments.length then
    (aiSnake1, kill aiSnake2)
  else (kill aiSnake1, aiSnake2)

/-- Population cap of generateNewAISnake (src/Game.tsx, lines 247-250):
`min(3 + floor(playerLength / 30), 8)`. -/
def maxAllowedAISnakes (playerLength : ℕ) : ℕ :=
  min (3 + playerLength / 30) 8

/-- Outcome of the synchronous part of one generateNewAISnake call. -/
structure GenResult where
  queue : ℕ
  isGeneratingAI : Bool
  added : Bool
deriving DecidableEq

/-- Synchronous decision logic of generateNewAISnake (src/Game.tsx, lines
242-404): at or above the cap the pending queue is cleared and nothing is
added; while a generation is in flight the request is coalesced into the
bounded queue; without a player nothing is added; otherwise exactly one
rival is appended to the population.  The deferred queue drain in the
`finally` timeout runs on a later tick and is not part of this step. -/
def generateNewAISnakeStep (aliveCount playerLength queue : ℕ)
    (isGeneratingAI : Bool) (playerExists : Bool) : GenResult :=
  if maxAllowedAISnakes playerLength ≤ aliveCount then
    { queue := 0, isGeneratingAI := isGeneratingAI, added := false }
  else if isGeneratingAI then
    if queue < maxAllowedAISnakes playerLength - aliveCount then
      { queue := queue + 1, isGeneratingAI := true, added := false }
    else { queue := queue, isGeneratingAI := true, added := false }
  else if ¬ playerExists then
    { queue := queue, isGeneratingAI := false, added := false }
  else { queue := queue, isGeneratingAI := true, added := true }

/-
  Concrete states used to instantiate the theorems.
-/

/-- Segment builder for concrete states. -/
def mkSegment (x y width : ℝ) (imm : Option ℝ) : SnakeSegment :=
  { position := { x := x, y := y }
    width := width
    type := SegmentType.BODY
    immunityTimeLeft := imm
    boosting := false }

/-- Snake builder for concrete states. -/
def mkSnake (segs : List SnakeSegment) (speed : ℝ) (alive : Bool) : Snake :=
  { id := "s"
    segments := segs
    direction := { x := 1, y := 0 }
    targetDirection := { x := 1, y := 0 }
    speed := speed
    baseSpeed := speed
    boostSpeed := speed
    boosting := false
    boostTimeLeft := 0
    invincibleBoost := false
    lastBoostCostTime := 0
    points := 0
    alive := alive
    segmentDistance := baseWidth
    lastUpdateTime := 0 }

/-- A live snake with a single head segment of width 4 at the origin. -/
def exHeadSnake : Snake :=
  mkSnake [mkSegment 0 0 4 none] 100 true

/-- A dead snake. -/
def exDeadSnake : Snake :=
  mkSnake [mkSegment 0 0 4 none] 0 false

/-- A live rival moving at the rival base speed 90. -/
def exAISnake : Snake :=
  mkSnake [mkSegment 0 0 4 none] 90 true

/-- A live rival with two segments. -/
def exLongSnake : Snake :=
  mkSnake [mkSegment 0 0 4 none, mkSegment 4 0 4 none] 90 true

/-- A snake whose head of width 4 sits at x = 2, its left edge exactly on
the left wall. -/
def exWallSnake : Snake :=
  mkSnake [mkSegment 2 5 4 none] 100 true

/-- A snake whose head of width 4 sits at the middle of a 100 by 100
canvas, clear of every wall. -/
def exSafeSnake : Snake :=
  mkSnake [mkSegment 50 50 4 none] 100 true

/-- Attacking snake for the cross-body tests: head of width 4 at the
origin. -/
def exAttacker : Snake :=
  mkSnake [mkSegment 0 0 4 none] 100 true

/-- Target snake whose six segments all carry immunity: indices 0-4 by the
head window, index 5 by `immunityTimeLeft = 1`.  Segment 5 sits at the
origin, overlapping the attacker's head. -/
def exImmuneTarget : Snake :=
  mkSnake [mkSegment 10 10 4 none, mkSegment 11 10 4 none,
    mkSegment 12 10 4 none, mkSegment 13 10 4 none, mkSegment 14 10 4 none,
    mkSegment 0 0 4 (some 1)] 90 true

/-- Target snake like `exImmuneTarget` but whose overlapping segment 5 has
no timed immunity. -/
def exOpenTarget : Snake :=
  mkSnake [mkSegment 10 10 4 none, mkSegment 11 10 4 none,
    mkSegment 12 10 4 none, mkSegment 13 10 4 none, mkSegment 14 10 4 none,
    mkSegment 0 0 4 none] 90 true

/-
  Helper lemmas about the embedding.
-/

/-- Recomputing widths does not change the number of segments. -/
theorem updateSegmentWidths_length (s : Snake) :
    (updateSegmentWidths s).segments.length = s.segments.length := by
  simp [updateSegmentWidths]

/-- Recomputing widths does not change the alive flag. -/
theorem updateSegmentWidths_alive (s : Snake) :
    (updateSegmentWidths s).alive = s.alive := rfl

/-- Applying immunity does not change the alive flag. -/
theorem applyImmunity_alive (s : Snake) (i : ℤ) (d : ℝ) :
    (applyImmunity s i d).alive = s.alive := by
  unfold applyImmunity
  split <;> rfl

/-- Unfolding lemma for distance. -/
theorem distance_eq (v1 v2 : Vector) :
    distance v1 v2 = Real.sqrt ((v2.x - v1.x) * (v2.x - v1.x) +
      (v2.y - v1.y) * (v2.y - v1.y)) := rfl

/-
  Claim theorems.
-/

/-- C9: getSegmentRadius is total over all integer indices: it returns 0 for
every index outside `[0, segments.length)` and `segments[i].width / 2` for
every in-range index, so out-of-range collision queries never fault and
never report a positive radius. -/
theorem getSegmentRadius_total (s : Snake) (i : ℤ) :
    (i < 0 ∨ (s.segments.length : ℤ) ≤ i → getSegmentRadius s i = 0) ∧
    ∀ (h1 : 0 ≤ i) (h2 : i < (s.segments.length : ℤ)),
      getSegmentRadius s i =
        (s.segments.get ⟨i.toNat, by omega⟩).width / 2 := by
  constructor
  · intro h
    rw [getSegmentRadius, dif_pos h]
  · intro h1 h2
    rw [getSegmentRadius, dif_neg (by omega)]

/-- Witness for C9 at a one-segment snake of width 4: index -1 reports
radius 0 and index 0 reports 2. -/
theorem getSegmentRadius_total_witness :
    getSegmentRadius exHeadSnake (-1) = 0 ∧
    getSegmentRadius exHeadSnake 0 = 2 := by
  constructor
  · exact (getSegmentRadius_total exHeadSnake (-1)).1 (Or.inl (by norm_num))
  · have h := (getSegmentRadius_total exHeadSnake 0).2 (le_refl 0)
      (by simp [exHeadSnake, mkSnake])
    rw [h]
    norm_num [exHeadSnake, mkSnake, mkSegment]

/-- C10: on a dead snake, and for every snake when `amount ≤ 0`, grow and
shrink return early and leave the whole state unchanged. -/
theorem grow_shrink_frame (s : Snake) (k : ℤ)
    (h : s.alive = false ∨ k ≤ 0) :
    grow s k = s ∧ shrink s k = s := by
  have hc : ¬ s.alive = true ∨ k ≤ 0 := by
    rcases h with h | h
    · exact Or.inl (by simp [h])
    · exact Or.inr h
  constructor
  · rw [grow, if_pos hc]
  · rw [shrink, if_pos hc]

/-- Witness for C10 at a dead snake and `k = 5`. -/
theorem grow_shrink_frame_witness :
    grow exDeadSnake 5 = exDeadSnake ∧ shrink exDeadSnake 5 = exDeadSnake :=
  grow_shrink_frame exDeadSnake 5 (Or.inl rfl)

/-- C2 (code bug): resolving a rival-head-hits-player-body event on a live
rival of speed 90 flips `alive` to false but leaves `speed` at 90, because
the handler assigns `alive = false` directly instead of calling `kill()`;
`kill` itself would have zeroed the speed. -/
theorem aiPlayerBody_dead_keeps_speed :
    (resolveAIPlayerBody exAISnake false).alive = false ∧
    (resolveAIPlayerBody exAISnake false).speed = 90 ∧
    (90 : ℝ) ≠ 0 ∧ (kill exAISnake).speed = 0 := by
  refine ⟨?_, ?_, by norm_num, rfl⟩ <;>
    simp [resolveAIPlayerBody, exAISnake, mkSnake]

/-- C4: in a rival-vs-rival head-to-body resolution with both rivals
present, the rival with strictly fewer segments is killed and the other is
left untouched; on an exact tie the head owner (named first) survives
unchanged and the second rival is killed. -/
theorem aiAi_shorter_dies (a b : Snake) :
    (a.segments.length < b.segments.length →
       (resolveAIAI a b).1 = kill a ∧ (resolveAIAI a b).2 = b ∧
       (kill a).alive = false) ∧
    (b.segments.length < a.segments.length →
       (resolveAIAI a b).1 = a ∧ (resolveAIAI a b).2 = kill b ∧
       (kill b).alive = false) ∧
    (a.segments.length = b.segments.length →
       (resolveAIAI a b).1 = a ∧ (resolveAIAI a b).2 = kill b ∧
       (kill b).alive = false) := by
  refine ⟨fun h => ?_, fun h => ?_, fun h => ?_⟩
  · rw [resolveAIAI, if_neg (by omega)]
    exact ⟨rfl, rfl, rfl⟩
  · rw [resolveAIAI, if_pos (by omega)]
    exact ⟨rfl, rfl, rfl⟩
  · rw [resolveAIAI, if_pos (by omega)]
    exact ⟨rfl, rfl, rfl⟩

/-- Witness for C4: a one-segment rival rams a two-segment rival and dies;
the longer rival is untouched. -/
theorem aiAi_shorter_dies_witness :
    (resolveAIAI exAISnake exLongSnake).1 = kill exAISnake ∧
    (resolveAIAI exAISnake exLongSnake).2 = exLongSnake ∧
    (kill exAISnake).alive = false :=
  (aiAi_shorter_dies exAISnake exLongSnake).1
    (by simp [exAISnake, exLongSnake, mkSnake])

/-- C8: generateNewAISnake never adds a rival at or above the population cap
`min(3 + floor(playerLength / 30), 8)`: at the cap it returns without adding
and clears the pending queue, and whenever it does add one the live count
was strictly below the cap, so spawning never pushes the count past it. -/
theorem generateNewAISnake_cap (aliveCount playerLength queue : ℕ)
    (isGen playerExists : Bool) :
    (maxAllowedAISnakes playerLength ≤ aliveCount →
       (generateNewAISnakeStep aliveCount playerLength queue isGen
         playerExists).added = false ∧
       (generateNewAISnakeStep aliveCount playerLength queue isGen
         playerExists).queue = 0) ∧
    ((generateNewAISnakeStep aliveCount playerLength queue isGen
         playerExists).added = true →
       aliveCount + 1 ≤ maxAllowedAISnakes playerLength) := by
  constructor
  · intro h
    rw [generateNewAISnakeStep, if_pos h]
    exact ⟨rfl, rfl⟩
  · intro hadd
    by_cases h : maxAllowedAISnakes playerLength ≤ aliveCount
    · rw [generateNewAISnakeStep, if_pos h] at hadd
      exact absurd hadd (by simp)
    · omega

/-- Witness for C8: with player length 0 the cap is 3; a call with 3 live
rivals and 5 queued requests adds nothing and clears the queue. -/
theorem generateNewAISnake_cap_witness :
    (generateNewAISnakeStep 3 0 5 false true).added = false ∧
    (generateNewAISnakeStep 3 0 5 false true).queue = 0 :=
  (generateNewAISnake_cap 3 0 5 false true).1 (by decide)

/-- C6: growing by `k` and then shrinking by `k` restores the original
segment count.  For a snake with at least one segment the shrink floor of 1
is never crossed, so no exception arises; dead snakes and `k ≤ 0` round-trip
trivially through the early returns. -/
theorem grow_shrink_roundtrip (s : Snake) (k : ℤ) (hne : s.segments ≠ []) :
    (shrink (grow s k) k).segments.length = s.segments.length := by
  have hlen : 0 < s.segments.length := List.length_pos.mpr hne
  by_cases hc : ¬ s.alive = true ∨ k ≤ 0
  · rw [grow, if_pos hc, shrink, if_pos hc]
  · push_neg at hc
    obtain ⟨ha, hk⟩ := hc
    have hcond : ¬ (¬ s.alive = true ∨ k ≤ 0) := by
      simp only [ha, not_true_eq_false, false_or, not_le]
      omega
    have hglen : (grow s k).segments.length = s.segments.length + k.toNat := by
      rw [grow, if_neg hcond, dif_neg hne, updateSegmentWidths_length]
      simp
    have hgalive : (grow s k).alive = true := by
      rw [grow, if_neg hcond, dif_neg hne, updateSegmentWidths_alive]
      exact ha
    have hcond2 : ¬ (¬ (grow s k).alive = true ∨ k ≤ 0) := by
      simp only [hgalive, not_true_eq_false, false_or, not_le]
      omega
    rw [shrink, if_neg hcond2, updateSegmentWidths_length]
    simp only [List.length_take]
    rw [hglen]
    omega

/-- Witness for C6 at a one-segment snake and `k = 2`. -/
theorem grow_shrink_roundtrip_witness :
    (shrink (grow exHeadSnake 2) 2).segments.length =
      exHeadSnake.segments.length :=
  grow_shrink_roundtrip exHeadSnake 2 (by simp [exHeadSnake, mkSnake])

/-- C3: resolving a player self-collision at any in-range segment index sets
that segment's `immunityTimeLeft` to `selfCollisionImmunityTime` and leaves
the player's alive flag unchanged — it never kills the player. -/
theorem playerSelf_immunity (s : Snake) (i : ℤ) (h1 : 0 ≤ i)
    (h2 : i < (s.segments.length : ℤ)) :
    ((resolvePlayerSelf s i).segments.get? i.toNat).bind
        SnakeSegment.immunityTimeLeft = some selfCollisionImmunityTime ∧
    (resolvePlayerSelf s i).alive = s.alive := by
  refine ⟨?_, applyImmunity_alive s i _⟩
  rw [resolvePlayerSelf, applyImmunity, dif_pos ⟨h1, h2⟩]
  have hi : i.toNat < s.segments.length := by omega
  simp [List.get?_eq_getElem?, List.getElem?_set_eq_of_lt _ hi]

/-- Witness for C3 at a two-segment snake and index 1. -/
theorem playerSelf_immunity_witness :
    ((resolvePlayerSelf exLongSnake 1).segments.get? 1).bind
        SnakeSegment.immunityTimeLeft = some selfCollisionImmunityTime ∧
    (resolvePlayerSelf exLongSnake 1).alive = exLongSnake.alive := by
  have h := playerSelf_immunity exLongSnake 1 (by norm_num)
    (by simp [exLongSnake, mkSnake])
  simpa using h

/-- C7: the wall test fires exactly at the boundary: a head center exactly
at distance `radius` from any wall collides, and a head strictly farther
than `radius` from all four walls does not. -/
theorem wallCollision_boundary (s : Snake) (w h : ℝ) :
    ((headPosition s).x = getSegmentRadius s 0 ∨
     w - (headPosition s).x = getSegmentRadius s 0 ∨
     (headPosition s).y = getSegmentRadius s 0 ∨
     h - (headPosition s).y = getSegmentRadius s 0 →
       checkSnakeWallCollision s w h = true) ∧
    (getSegmentRadius s 0 < (headPosition s).x →
     (headPosition s).x + getSegmentRadius s 0 < w →
     getSegmentRadius s 0 < (headPosition s).y →
     (headPosition s).y + getSegmentRadius s 0 < h →
       checkSnakeWallCollision s w h = false) := by
  constructor
  · intro hc
    simp only [checkSnakeWallCollision, Bool.or_eq_true, decide_eq_true_eq]
    rcases hc with hc | hc | hc | hc
    · exact Or.inl (Or.inl (Or.inl (by linarith)))
    · exact Or.inl (Or.inl (Or.inr (by linarith)))
    · exact Or.inl (Or.inr (by linarith))
    · exact Or.inr (by linarith)
  · intro h1 h2 h3 h4
    simp only [checkSnakeWallCollision, Bool.or_eq_false_iff,
      decide_eq_false_iff_not, not_le]
    exact ⟨⟨⟨by linarith, by linarith⟩, by linarith⟩, by linarith⟩

/-- Witness for C7: a head of radius 2 centered at x = 2 touches the left
wall of a 100 by 100 canvas; a head of radius 2 centered at (50, 50) is
clear of every wall. -/
theorem wallCollision_boundary_witness :
    checkSnakeWallCollision exWallSnake 100 100 = true ∧
    checkSnakeWallCollision exSafeSnake 100 100 = false := by
  constructor
  · exact (wallCollision_boundary exWallSnake 100 100).1
      (Or.inl (by norm_num [headPosition, getSegmentRadius, exWallSnake,
        mkSnake, mkSegment]))
  · exact (wallCollision_boundary exSafeSnake 100 100).2
      (by norm_num [headPosition, getSegmentRadius, exSafeSnake, mkSnake,
        mkSegment])
      (by norm_num [headPosition, getSegmentRadius, exSafeSnake, mkSnake,
        mkSegment])
      (by norm_num [headPosition, getSegmentRadius, exSafeSnake, mkSnake,
        mkSegment])
      (by norm_num [headPosition, getSegmentRadius, exSafeSnake, mkSnake,
        mkSegment])

/-- C5: in the chain-follow step, trailing segments are processed in index
order, each against its already-updated predecessor; a segment farther than
`segmentSpacing` from its predecessor moves toward it by exactly the excess,
leaving the distance equal to `segmentSpacing`, and a segment within
`segmentSpacing` does not move. -/
theorem chainFollow_spec (segmentDistance : ℝ) (hs : 0 ≤ segmentDistance)
    (prevPos oldPos : Vector) :
    (segmentDistance < distance oldPos prevPos →
       distance (followSegment prevPos oldPos segmentDistance) prevPos =
         segmentDistance ∧
       distance oldPos (followSegment prevPos oldPos segmentDistance) =
         distance oldPos prevPos - segmentDistance) ∧
    (distance oldPos prevPos ≤ segmentDistance →
       followSegment prevPos oldPos segmentDistance = oldPos) ∧
    (∀ (seg : SnakeSegment) (rest : List SnakeSegment),
       followSegments segmentDistance prevPos (seg :: rest) =
         { seg with
           position := followSegment prevPos seg.position segmentDistance } ::
           followSegments segmentDistance
             (followSegment prevPos seg.position segmentDistance) rest) := by
  refine ⟨fun h => ?_, fun h => ?_, fun seg rest => rfl⟩
  · have hd0 : 0 < distance oldPos prevPos := lt_of_le_of_lt hs h
    have hdne : distance oldPos prevPos ≠ 0 := ne_of_gt hd0
    have hmagd : magnitude (subtract prevPos oldPos) =
        distance oldPos prevPos := rfl
    have hsq : distance oldPos prevPos * distance oldPos prevPos =
        (prevPos.x - oldPos.x) * (prevPos.x - oldPos.x) +
        (prevPos.y - oldPos.y) * (prevPos.y - oldPos.y) := by
      rw [distance_eq]
      exact Real.mul_self_sqrt
        (add_nonneg (mul_self_nonneg _) (mul_self_nonneg _))
    have hnorm : normalize (subtract prevPos oldPos) =
        { x := (prevPos.x - oldPos.x) / distance oldPos prevPos
          y := (prevPos.y - oldPos.y) / distance oldPos prevPos } := by
      rw [normalize, hmagd, if_neg hdne]
      rfl
    have hfollow : followSegment prevPos oldPos segmentDistance =
        { x := oldPos.x + (prevPos.x - oldPos.x) / distance oldPos prevPos *
            (distance oldPos prevPos - segmentDistance)
          y := oldPos.y + (prevPos.y - oldPos.y) / distance oldPos prevPos *
            (distance oldPos prevPos - segmentDistance) } := by
      simp only [followSegment]
      rw [if_pos h, hnorm]
      rfl
    set d := distance oldPos prevPos with hd
    set dx := prevPos.x - oldPos.x with hdx
    set dy := prevPos.y - oldPos.y with hdy
    constructor
    · rw [hfollow]
      show Real.sqrt
        ((prevPos.x - (oldPos.x + dx / d * (d - segmentDistance))) *
          (prevPos.x - (oldPos.x + dx / d * (d - segmentDistance))) +
         (prevPos.y - (oldPos.y + dy / d * (d - segmentDistance))) *
          (prevPos.y - (oldPos.y + dy / d * (d - segmentDistance)))) =
        segmentDistance
      have hx : prevPos.x - (oldPos.x + dx / d * (d - segmentDistance)) =
          dx * segmentDistance / d := by
        rw [hdx]
        field_simp
        ring
      have hy : prevPos.y - (oldPos.y + dy / d * (d - segmentDistance)) =
          dy * segmentDistance / d := by
        rw [hdy]
        field_simp
        ring
      rw [hx, hy]
      have key : dx * segmentDistance / d * (dx * segmentDistance / d) +
          dy * segmentDistance / d * (dy * segmentDistance / d) =
          segmentDistance * segmentDistance := by
        calc dx * segmentDistance / d * (dx * segmentDistance / d) +
            dy * segmentDistance / d * (dy * segmentDistance / d) =
            (dx * dx + dy * dy) * (segmentDistance / d) *
              (segmentDistance / d) := by ring
          _ = d * d * (segmentDistance / d) * (segmentDistance / d) := by
              rw [← hsq]
          _ = segmentDistance * segmentDistance := by
              field_simp
              ring
      rw [key, Real.sqrt_mul_self hs]
    · rw [hfollow]
      show Real.sqrt
        ((oldPos.x + dx / d * (d - segmentDistance) - oldPos.x) *
          (oldPos.x + dx / d * (d - segmentDistance) - oldPos.x) +
         (oldPos.y + dy / d * (d - segmentDistance) - oldPos.y) *
          (oldPos.y + dy / d * (d - segmentDistance) - oldPos.y)) =
        d - segmentDistance
      have hx2 : oldPos.x + dx / d * (d - segmentDistance) - oldPos.x =
          dx * (d - segmentDistance) / d := by ring
      have hy2 : oldPos.y + dy / d * (d - segmentDistance) - oldPos.y =
          dy * (d - segmentDistance) / d := by ring
      rw [hx2, hy2]
      have key2 : dx * (d - segmentDistance) / d *
          (dx * (d - segmentDistance) / d) +
          dy * (d - segmentDistance) / d *
          (dy * (d - segmentDistance) / d) =
          (d - segmentDistance) * (d - segmentDistance) := by
        calc dx * (d - segmentDistance) / d *
            (dx * (d - segmentDistance) / d) +
            dy * (d - segmentDistance) / d *
            (dy * (d - segmentDistance) / d) =
            (dx * dx + dy * dy) * ((d - segmentDistance) / d) *
              ((d - segmentDistance) / d) := by ring
          _ = d * d * ((d - segmentDistance) / d) *
              ((d - segmentDistance) / d) := by rw [← hsq]
          _ = (d - segmentDistance) * (d - segmentDistance) := by
              field_simp
              ring
      rw [key2, Real.sqrt_mul_self (by linarith)]
  · simp only [followSegment]
    rw [if_neg (not_lt.mpr h)]

/-- Witness for C5: with spacing 3, a segment at the origin whose
predecessor is 5 away ends exactly 3 away from it, and a segment already
2 away does not move. -/
theorem chainFollow_spec_witness :
    distance (followSegment { x := 5, y := 0 } { x := 0, y := 0 } 3)
      { x := 5, y := 0 } = 3 ∧
    followSegment { x := 5, y := 0 } { x := 3, y := 0 } 3 =
      { x := 3, y := 0 } := by
  have hd5 : distance { x := 0, y := 0 } { x := 5, y := 0 } = 5 := by
    rw [distance_eq]
    norm_num
    rw [show (25 : ℝ) = 5 * 5 by norm_num,
      Real.sqrt_mul_self (by norm_num : (0:ℝ) ≤ 5)]
  have hd2 : distance { x := 3, y := 0 } { x := 5, y := 0 } = 2 := by
    rw [distance_eq]
    norm_num
    rw [show (4 : ℝ) = 2 * 2 by norm_num,
      Real.sqrt_mul_self (by norm_num : (0:ℝ) ≤ 2)]
  constructor
  · exact ((chainFollow_spec 3 (by norm_num) { x := 5, y := 0 }
      { x := 0, y := 0 }).1 (by rw [hd5]; norm_num)).1
  · exact (chainFollow_spec 3 (by norm_num) { x := 5, y := 0 }
      { x := 3, y := 0 }).2.1 (by rw [hd2]; norm_num)

/-- Soundness of the scan loop: a reported collision names an index at or
after the start that is not immune and geometrically hit. -/
theorem snakeCollisionFrom_sound (s1 s2 : Snake) :
    ∀ (k j : ℕ), s2.segments.length - j ≤ k →
      (snakeCollisionFrom s1 s2 j).collided = true →
      ∃ i : ℕ, (snakeCollisionFrom s1 s2 j).segmentIndex = (i : ℤ) ∧
        j ≤ i ∧ isSegmentImmune s2 i = false ∧ segmentHit s1 s2 i := by
  intro k
  induction k with
  | zero =>
    intro j hj hc
    rw [snakeCollisionFrom.eq_def, dif_neg (by omega)] at hc
    simp at hc
  | succ k ih =>
    intro j hj hc
    by_cases hlen : j < s2.segments.length
    · rw [snakeCollisionFrom.eq_def, dif_pos hlen] at hc ⊢
      by_cases himm : isSegmentImmune s2 j = true
      · rw [if_pos himm] at hc ⊢
        obtain ⟨i, h1, h2, h3, h4⟩ := ih (j + 1) (by omega) hc
        exact ⟨i, h1, by omega, h3, h4⟩
      · rw [if_neg himm] at hc ⊢
        by_cases hhit : distance (headPosition s1)
            ((s2.segments.get ⟨j, hlen⟩).position) <
            getSegmentRadius s1 0 + getSegmentRadius s2 (j : ℤ)
        · rw [if_pos hhit] at hc ⊢
          exact ⟨j, rfl, le_refl j, by simpa using himm, ⟨hlen, hhit⟩⟩
        · rw [if_neg hhit] at hc ⊢
          obtain ⟨i, h1, h2, h3, h4⟩ := ih (j + 1) (by omega) hc
          exact ⟨i, h1, by omega, h3, h4⟩
    · rw [snakeCollisionFrom.eq_def, dif_neg hlen] at hc
      simp at hc

/-- Completeness of the scan loop: a non-immune, geometrically hit segment
at or after the start makes the scan report a collision. -/
theorem snakeCollisionFrom_complete (s1 s2 : Snake) :
    ∀ (k j i : ℕ), s2.segments.length - j ≤ k → j ≤ i →
      isSegmentImmune s2 i = false → segmentHit s1 s2 i →
      (snakeCollisionFrom s1 s2 j).collided = true := by
  intro k
  induction k with
  | zero =>
    intro j i hj hji himm hhit
    obtain ⟨hilen, _⟩ := hhit
    omega
  | succ k ih =>
    intro j i hj hji himm hhit
    obtain ⟨hilen, hidist⟩ := hhit
    have hjlen : j < s2.segments.length := by omega
    rw [snakeCollisionFrom.eq_def, dif_pos hjlen]
    by_cases himmj : isSegmentImmune s2 j = true
    · rw [if_pos himmj]
      have hne : j ≠ i := by
        intro he
        rw [he, himm] at himmj
        cases himmj
      exact ih (j + 1) i (by omega) (by omega) himm ⟨hilen, hidist⟩
    · rw [if_neg himmj]
      by_cases hhitj : distance (headPosition s1)
          ((s2.segments.get ⟨j, hjlen⟩).position) <
          getSegmentRadius s1 0 + getSegmentRadius s2 (j : ℤ)
      · rw [if_pos hhitj]
      · rw [if_neg hhitj]
        have hne : j ≠ i := by
          intro he
          subst he
          exact hhitj hidist
        exact ih (j + 1) i (by omega) (by omega) himm ⟨hilen, hidist⟩

/-- When every segment from the start index on is immune, the scan reports
no collision. -/
theorem snakeCollisionFrom_allImmune (s1 s2 : Snake) :
    ∀ (k j : ℕ), s2.segments.length - j ≤ k →
      (∀ i : ℕ, j ≤ i → i < s2.segments.length →
        isSegmentImmune s2 i = true) →
      snakeCollisionFrom s1 s2 j =
        { collided := false, segmentIndex := -1 } := by
  intro k
  induction k with
  | zero =>
    intro j hj hall
    rw [snakeCollisionFrom.eq_def, dif_neg (by omega)]
  | succ k ih =>
    intro j hj hall
    by_cases hlen : j < s2.segments.length
    · rw [snakeCollisionFrom.eq_def, dif_pos hlen,
        if_pos (hall j (le_refl j) hlen)]
      exact ih (j + 1) (by omega) fun i hi hi2 => hall i (by omega) hi2
    · rw [snakeCollisionFrom.eq_def, dif_neg hlen]

/-- C1 (amended): in the cross-body head-vs-body test
(`checkSnakeSnakeCollision` with `isSelfCollision = false`) the scan starts
at index 0 and tests every non-immune segment of the target body — any
non-immune overlapping segment produces a collision — but immune segments
(the first `headImmunitySegments`, or `immunityTimeLeft > 0`) are skipped
there as well and never produce the collision. -/
theorem crossBody_scan_spec (s1 s2 : Snake) :
    (∀ i : ℕ, checkSnakeSnakeCollision s1 s2 false =
        { collided := true, segmentIndex := (i : ℤ) } →
      isSegmentImmune s2 i = false ∧ segmentHit s1 s2 i) ∧
    (∀ i : ℕ, isSegmentImmune s2 i = false → segmentHit s1 s2 i →
      (checkSnakeSnakeCollision s1 s2 false).collided = true) := by
  have hchk : checkSnakeSnakeCollision s1 s2 false =
      snakeCollisionFrom s1 s2 0 := rfl
  constructor
  · intro i heq
    rw [hchk] at heq
    have hc : (snakeCollisionFrom s1 s2 0).collided = true := by
      rw [heq]
    obtain ⟨i', h1, _, h3, h4⟩ :=
      snakeCollisionFrom_sound s1 s2 s2.segments.length 0 (by omega) hc
    rw [heq] at h1
    simp only [Int.natCast_inj] at h1
    rw [← h1] at h3 h4
    exact ⟨h3, h4⟩
  · intro i himm hhit
    rw [hchk]
    exact snakeCollisionFrom_complete s1 s2 s2.segments.length 0 i (by omega)
      (Nat.zero_le i) himm hhit

/-- Counterexample for C1 as stated: segment 5 of the target carries timed
immunity and overlaps the attacker's head (their circles intersect), yet the
cross-body test with `isSelfCollision = false` reports no collision — the
immune segment is not tested, contradicting the claim that in the cross-body
test every segment, immune or not, can produce a collision. -/
theorem crossBody_immune_counterexample :
    isSegmentImmune exImmuneTarget 5 = true ∧
    segmentHit exAttacker exImmuneTarget 5 ∧
    (checkSnakeSnakeCollision exAttacker exImmuneTarget false).collided =
      false := by
  have hrad1 : getSegmentRadius exAttacker 0 = 2 := by
    rw [getSegmentRadius,
      dif_neg (by simp [exAttacker, mkSnake] : ¬ ((0:ℤ) < 0 ∨
        ((exAttacker.segments.length : ℤ) ≤ 0)))]
    simp only [Int.toNat_zero, List.getElem_cons_zero, exAttacker, mkSnake,
      mkSegment, List.get_eq_getElem]
    norm_num
  have hrad2 : getSegmentRadius exImmuneTarget ((5:ℕ) : ℤ) = 2 := by
    rw [getSegmentRadius,
      dif_neg (by simp [exImmuneTarget, mkSnake] : ¬ (((5:ℕ) : ℤ) < 0 ∨
        ((exImmuneTarget.segments.length : ℤ) ≤ ((5:ℕ) : ℤ))))]
    simp only [Int.toNat_ofNat, List.getElem_cons_succ, List.getElem_cons_zero,
      exImmuneTarget, mkSnake, mkSegment, List.get_eq_getElem]
    norm_num
  refine ⟨?_, ?_, ?_⟩
  · simp [isSegmentImmune, headImmunitySegments, exImmuneTarget, mkSnake,
      mkSegment]
  · refine ⟨by simp [exImmuneTarget, mkSnake], ?_⟩
    have e1 : headPosition exAttacker = { x := 0, y := 0 } := rfl
    have e2 : (exImmuneTarget.segments.get
        ⟨5, by simp [exImmuneTarget, mkSnake]⟩).position =
        { x := 0, y := 0 } := rfl
    rw [e1, e2, hrad1, hrad2, distance_eq]
    norm_num [Real.sqrt_zero]
  · have hchk : checkSnakeSnakeCollision exAttacker exImmuneTarget false =
        snakeCollisionFrom exAttacker exImmuneTarget 0 := rfl
    rw [hchk, snakeCollisionFrom_allImmune exAttacker exImmuneTarget
      exImmuneTarget.segments.length 0 (by omega) ?_]
    · intro i _ hi
      have hi6 : i < 6 := by simpa [exImmuneTarget, mkSnake] using hi
      interval_cases i <;>
        simp [isSegmentImmune, headImmunitySegments, exImmuneTarget,
          mkSnake, mkSegment]

/-- Witness for the amended C1: segment 5 of the open target is past the
head window, carries no timed immunity, and overlaps the attacker's head,
so the cross-body test reports a collision. -/
theorem crossBody_scan_spec_witness :
    (checkSnakeSnakeCollision exAttacker exOpenTarget false).collided =
      true := by
  have hrad1 : getSegmentRadius exAttacker 0 = 2 := by
    rw [getSegmentRadius,
      dif_neg (by simp [exAttacker, mkSnake] : ¬ ((0:ℤ) < 0 ∨
        ((exAttacker.segments.length : ℤ) ≤ 0)))]
    simp only [Int.toNat_zero, List.getElem_cons_zero, exAttacker, mkSnake,
      mkSegment, List.get_eq_getElem]
    norm_num
  have hrad2 : getSegmentRadius exOpenTarget ((5:ℕ) : ℤ) = 2 := by
    rw [getSegmentRadius,
      dif_neg (by simp [exOpenTarget, mkSnake] : ¬ (((5:ℕ) : ℤ) < 0 ∨
        ((exOpenTarget.segments.length : ℤ) ≤ ((5:ℕ) : ℤ))))]
    simp only [Int.toNat_ofNat, List.getElem_cons_succ, List.getElem_cons_zero,
      exOpenTarget, mkSnake, mkSegment, List.get_eq_getElem]
    norm_num
  apply (crossBody_scan_spec exAttacker exOpenTarget).2 5
  · simp [isSegmentImmune, headImmunitySegments, exOpenTarget, mkSnake,
      mkSegment]
  · refine ⟨by simp [exOpenTarget, mkSnake], ?_⟩
    have e1 : headPosition exAttacker = { x := 0, y := 0 } := rfl
    have e2 : (exOpenTarget.segments.get
        ⟨5, by simp [exOpenTarget, mkSnake]⟩).position =
        { x := 0, y := 0 } := rfl
    rw [e1, e2, hrad1, hrad2, distance_eq]
    norm_num [Real.sqrt_zero]

end

end SnakeBattle
